import Mathlib

/-!
Shallow embedding of the NovaCare fall-detection dashboard client code
(the static JavaScript under app/static/js: the per-role API modules, the
per-role UI controllers, and main.js), together with theorems about the
fetch wrappers, polling timers, the alarm beep generator, alert rendering,
the follow-mode toggle, the activity list bound, and the battery display.
-/

namespace FallDetection

/-! ### The generic fetch wrapper shared by all four API modules -/

/-- Errors thrown by a module fetch wrapper: a non-2xx HTTP status produces
`httpError status` (from the line throwing a new Error built from the status
code alone); a body that fails to parse produces `jsonError` (from the
rejection of response.json()). -/
inductive FetchError where
  | httpError (status : Nat)
  | jsonError
deriving DecidableEq, Repr

/-- The ok field of a Fetch API response: status in the range 200 to 299. -/
def respOk (status : Nat) : Bool := 200 ≤ status && status ≤ 299

/-- An HTTP response as observed by a fetch wrapper: the status code and the
result of response.json(), which is `none` when the body is not valid JSON. -/
structure HttpResponse (α : Type) where
  status : Nat
  jsonBody : Option α
deriving DecidableEq, Repr

/-- CaregiverAPI fetch wrapper: checks response.ok, throws a generic error
built from the status code when the response is not ok, otherwise returns
the parsed JSON body; the catch block logs and rethrows unchanged. -/
def CaregiverAPI_fetch {α : Type} (r : HttpResponse α) : Except FetchError α :=
  if respOk r.status then
    match r.jsonBody with
    | some j => .ok j
    | none => .error .jsonError
  else .error (.httpError r.status)

/-- PrimaryUserAPI fetch wrapper, identical line for line to the caregiver
one: non-ok status throws the generic status-only error, ok status returns
the parsed JSON body. -/
def PrimaryUserAPI_fetch {α : Type} (r : HttpResponse α) : Except FetchError α :=
  if respOk r.status then
    match r.jsonBody with
    | some j => .ok j
    | none => .error .jsonError
  else .error (.httpError r.status)

/-- EmergencyAPI fetch wrapper, identical line for line to the caregiver
one. -/
def EmergencyAPI_fetch {α : Type} (r : HttpResponse α) : Except FetchError α :=
  if respOk r.status then
    match r.jsonBody with
    | some j => .ok j
    | none => .error .jsonError
  else .error (.httpError r.status)

/-- HealthProfessionalAPI fetch wrapper, identical line for line to the
caregiver one. -/
def HealthProfessionalAPI_fetch {α : Type} (r : HttpResponse α) : Except FetchError α :=
  if respOk r.status then
    match r.jsonBody with
    | some j => .ok j
    | none => .error .jsonError
  else .error (.httpError r.status)

/-! ### Request URLs built by the four API modules -/

def CaregiverAPI_baseURL : String := "/caregiver/api"

def CaregiverAPI_patientId : String := "patient_001"

def CaregiverAPI_getPatientStatus_url : String :=
  CaregiverAPI_baseURL ++ "/patient/status/" ++ CaregiverAPI_patientId

def CaregiverAPI_getLocation_url : String :=
  CaregiverAPI_baseURL ++ "/patient/location/" ++ CaregiverAPI_patientId

/-- URL built by CaregiverAPI.getAlerts: the severity query parameter is
appended only when a severity filter is given. -/
def CaregiverAPI_getAlerts_url (limit : Nat) (severity : Option String) : String :=
  let url := CaregiverAPI_baseURL ++ "/alerts/" ++ CaregiverAPI_patientId
    ++ "?limit=" ++ toString limit
  match severity with
  | some s => url ++ "&severity=" ++ s
  | none => url

def CaregiverAPI_markAlertRead_url (alertId : String) : String :=
  CaregiverAPI_baseURL ++ "/alerts/" ++ alertId ++ "/read"

def CaregiverAPI_getBattery_url : String :=
  CaregiverAPI_baseURL ++ "/device/battery/" ++ CaregiverAPI_patientId

def CaregiverAPI_getVideoStream_url : String :=
  CaregiverAPI_baseURL ++ "/video/stream/" ++ CaregiverAPI_patientId

def PrimaryUserAPI_baseURL : String := "/primary/api"

def PrimaryUserAPI_inputMode_url : String :=
  PrimaryUserAPI_baseURL ++ "/input-mode"

def PrimaryUserAPI_visualFeedback_url : String :=
  PrimaryUserAPI_baseURL ++ "/visual-feedback"

def PrimaryUserAPI_getNextMedication_url (userId : String) : String :=
  PrimaryUserAPI_baseURL ++ "/medication/next?user_id=" ++ userId

def PrimaryUserAPI_getMedicationSchedules_url (userId : String) : String :=
  PrimaryUserAPI_baseURL ++ "/medication/schedules?user_id=" ++ userId

def PrimaryUserAPI_queryMedical_url : String :=
  PrimaryUserAPI_baseURL ++ "/medical-query"

def PrimaryUserAPI_followMode_url : String :=
  PrimaryUserAPI_baseURL ++ "/navigation/follow-mode"

def PrimaryUserAPI_identifyObject_url : String :=
  PrimaryUserAPI_baseURL ++ "/vision/identify"

def PrimaryUserAPI_readText_url : String :=
  PrimaryUserAPI_baseURL ++ "/vision/read-text"

def PrimaryUserAPI_describeScene_url : String :=
  PrimaryUserAPI_baseURL ++ "/vision/describe-scene"

def PrimaryUserAPI_getSettings_url (userId : String) : String :=
  PrimaryUserAPI_baseURL ++ "/settings?user_id=" ++ userId

def PrimaryUserAPI_updateAccessibility_url : String :=
  PrimaryUserAPI_baseURL ++ "/settings/accessibility"

def PrimaryUserAPI_updatePrivacy_url : String :=
  PrimaryUserAPI_baseURL ++ "/settings/privacy"

def EmergencyAPI_baseURL : String := "/emergency/api"

def EmergencyAPI_getEmergencyDetails_url (emergencyId : String) : String :=
  EmergencyAPI_baseURL ++ "/emergency/" ++ emergencyId

def EmergencyAPI_getCriticalData_url (emergencyId : String) : String :=
  EmergencyAPI_baseURL ++ "/emergency/" ++ emergencyId ++ "/critical"

def EmergencyAPI_updateStatus_url (emergencyId : String) : String :=
  EmergencyAPI_baseURL ++ "/emergency/" ++ emergencyId ++ "/status"

def EmergencyAPI_getEnvironmentalData_url (emergencyId : String) : String :=
  EmergencyAPI_baseURL ++ "/emergency/" ++ emergencyId ++ "/environmental"

def EmergencyAPI_sendReassurance_url (emergencyId : String) : String :=
  EmergencyAPI_baseURL ++ "/emergency/" ++ emergencyId ++ "/reassure"

/-- URL built by EmergencyAPI.getNearbyFacilities; the latitude and
longitude arguments stand for the interpolated decimal text of the two
numbers. -/
def EmergencyAPI_getNearbyFacilities_url (lat lng : String) : String :=
  EmergencyAPI_baseURL ++ "/facilities?lat=" ++ lat ++ "&lng=" ++ lng

def HealthProfessionalAPI_baseURL : String := "/health-professional/api"

def HealthProfessionalAPI_patientId : String := "patient_001"

def HealthProfessionalAPI_getCurrentVitals_url : String :=
  HealthProfessionalAPI_baseURL ++ "/patient/vitals/" ++ HealthProfessionalAPI_patientId

/-- URL built by HealthProfessionalAPI.getVitalsHistory: the type query
parameter is appended only when a vital type is given. -/
def HealthProfessionalAPI_getVitalsHistory_url (hours : Nat) (vitalType : Option String) : String :=
  let url := HealthProfessionalAPI_baseURL ++ "/patient/vitals/"
    ++ HealthProfessionalAPI_patientId ++ "/history?hours=" ++ toString hours
  match vitalType with
  | some t => url ++ "&type=" ++ t
  | none => url

def HealthProfessionalAPI_getHealthTrends_url : String :=
  HealthProfessionalAPI_baseURL ++ "/patient/trends/" ++ HealthProfessionalAPI_patientId

def HealthProfessionalAPI_generateReport_url : String :=
  HealthProfessionalAPI_baseURL ++ "/patient/report/" ++ HealthProfessionalAPI_patientId

def HealthProfessionalAPI_getMedicationAdherence_url : String :=
  HealthProfessionalAPI_baseURL ++ "/patient/medication-adherence/"
    ++ HealthProfessionalAPI_patientId

def HealthProfessionalAPI_getFallIncidents_url (days : Nat) : String :=
  HealthProfessionalAPI_baseURL ++ "/patient/falls/" ++ HealthProfessionalAPI_patientId
    ++ "?days=" ++ toString days

/-- The four role-specific base URLs of the API modules. -/
def roleBaseURLs : List String :=
  [CaregiverAPI_baseURL, PrimaryUserAPI_baseURL, EmergencyAPI_baseURL,
    HealthProfessionalAPI_baseURL]

/-- The literal URLs fetched directly by main.js outside any API module:
loadDashboardStats, loadAlerts, loadChartData and refreshHealth. -/
def mainDashboardFetchUrls : List String :=
  ["/api/stats", "/api/alerts?per_page=10", "/api/stats/daily?days=7", "/api/health"]

/-- Boolean prefix test on the character data of two strings. -/
def strStartsWith (u p : String) : Bool :=
  u.data.take p.data.length == p.data

/-! ### Polling timers -/

/-- The setInterval periods, in milliseconds, registered by
CaregiverUI.startPolling: patient status every 10 s, location every 30 s,
battery every 60 s, alerts every 15 s. -/
def CaregiverUI_startPolling_intervals : List Nat := [10000, 30000, 60000, 15000]

/-- The setInterval periods registered by PrimaryUserUI.startPolling:
visual feedback every 5 s, medication every 30 s. -/
def PrimaryUserUI_startPolling_intervals : List Nat := [5000, 30000]

/-- The setInterval periods registered by HealthProfessionalUI.startPolling:
vitals every 30 s, trends and medication adherence every 300 s (5 minutes). -/
def HealthProfessionalUI_startPolling_intervals : List Nat := [30000, 300000]

/-- Every interval argument passed to setInterval inside a startPolling
method of a UI controller. EmergencyUI has no startPolling; its elapsed-time
ticker lives in startTimer. -/
def startPollingIntervals : List Nat :=
  CaregiverUI_startPolling_intervals ++ PrimaryUserUI_startPolling_intervals
    ++ HealthProfessionalUI_startPolling_intervals

/-- Every setInterval call site in the dashboard JavaScript, one constructor
per timer handle the code creates. -/
inductive DashboardTimer where
  | mainUpdateTime
  | mainDashboardStats
  | dashUpdateTime
  | caregiverPatientStatus
  | caregiverLocation
  | caregiverBattery
  | caregiverAlerts
  | primaryVisualFeedback
  | primaryMedication
  | healthVitals
  | healthTrends
  | emergencyElapsed
  | alarmBeep
deriving DecidableEq, Repr

/-- Whether any clearInterval in the code is ever applied to the handle of
the given timer. Only the alarm beep interval is ever cleared:
playAlertSound clears a previous alarmInterval before starting, the interval
callback clears itself once beepCount reaches maxBeeps, and stopAlarm clears
it as well. Every other handle is discarded without a clearInterval. -/
def timerCleared : DashboardTimer → Bool
  | .alarmBeep => true
  | _ => false

/-! ### The alarm beep generator of main.js -/

/-- maxBeeps constant of playAlertSound. -/
def maxBeeps : Nat := 9

/-- Frequency chosen by the alarmInterval callback: 880 Hz when beepCount is
even, 660 Hz when it is odd. -/
def alarmFreq (beepCount : Nat) : Nat :=
  if beepCount % 2 == 0 then 880 else 660

/-- Observable alarm state: the beepCount counter, whether the repeating
interval is still armed, and every beep frequency scheduled so far in
order. -/
structure AlarmState where
  beepCount : Nat
  intervalActive : Bool
  beeps : List Nat
deriving DecidableEq, Repr

/-- State right after the synchronous part of playAlertSound: one 880 Hz
beep already scheduled, beepCount incremented to 1, the interval armed. -/
def playAlertSoundStart : AlarmState :=
  { beepCount := 1, intervalActive := true, beeps := [880] }

/-- One firing of the alarmInterval callback: once beepCount has reached
maxBeeps the callback clears its own interval and returns; otherwise it
schedules one beep at the alternating frequency and increments beepCount. -/
def alarmTick (s : AlarmState) : AlarmState :=
  if !s.intervalActive then s
  else if maxBeeps ≤ s.beepCount then
    { s with intervalActive := false }
  else
    { s with beeps := s.beeps ++ [alarmFreq s.beepCount],
             beepCount := s.beepCount + 1 }

/-- Alarm state after the interval callback has fired n times following one
call of playAlertSound. -/
def alarmAfter : Nat → AlarmState
  | 0 => playAlertSoundStart
  | n + 1 => alarmTick (alarmAfter n)

/-! ### Caregiver alert rendering -/

/-- An alert record as consumed by CaregiverUI.renderAlerts. -/
structure AlertRec where
  id : String
  severity : String
  type : String
  message : String
  location : String
  timestamp : String
  read : Bool
deriving DecidableEq, Repr

/-- The severityColors lookup of renderAlerts with its default for unknown
severities (the JavaScript object lookup followed by the or-default). -/
def severityColorClass (severity : String) : String :=
  if severity == "critical" then "bg-red-50 border-red-300"
  else if severity == "high" then "bg-orange-50 border-orange-300"
  else if severity == "medium" then "bg-yellow-50 border-yellow-300"
  else if severity == "low" then "bg-blue-50 border-blue-300"
  else "bg-gray-50 border-gray-300"

/-- The severityBadges lookup of renderAlerts with its default. -/
def severityBadgeClass (severity : String) : String :=
  if severity == "critical" then "bg-red-500"
  else if severity == "high" then "bg-orange-500"
  else if severity == "medium" then "bg-yellow-500"
  else if severity == "low" then "bg-blue-500"
  else "bg-gray-500"

/-- The parts of one rendered alert item that the claims talk about: the
data-alert-id value, the two class lookups, the opacity-50 dimming applied
to read alerts, the presence of the data-unread attribute, stored as `true`
exactly when the markup writes it, and the presence of the red unread
dot element. -/
structure RenderedAlertItem where
  alertId : String
  colorClass : String
  badgeClass : String
  dimmed : Bool
  dataUnread : Bool
  unreadDot : Bool
deriving DecidableEq, Repr

/-- The body of the map inside CaregiverUI.renderAlerts, for one alert. -/
def renderAlertItem (a : AlertRec) : RenderedAlertItem :=
  { alertId := a.id
    colorClass := severityColorClass a.severity
    badgeClass := severityBadgeClass a.severity
    dimmed := a.read
    dataUnread := !a.read
    unreadDot := !a.read }

/-- CaregiverUI.renderAlerts maps every alert record to one rendered item
(the empty-list early return replaces the list with a placeholder and is
out of scope of the per-item properties). -/
def renderAlerts (alerts : List AlertRec) : List RenderedAlertItem :=
  alerts.map renderAlertItem

/-- Ids of the items that receive a click handler: renderAlerts queries the
container for alert items whose data-unread attribute is set and attaches
the handler to each of those. -/
def clickHandlerTargets (items : List RenderedAlertItem) : List String :=
  (items.filter (fun i => i.dataUnread)).map (fun i => i.alertId)

/-- Observable effects of CaregiverUI.markAlertRead. -/
inductive CaregiverEffect where
  | post (url : String)
  | reloadAlerts
deriving DecidableEq, Repr

/-- CaregiverUI.markAlertRead: always POSTs the mark-read endpoint for the
given alert id; when the result reports success it reloads the alert list,
otherwise it stops. -/
def markAlertRead (alertId : String) (success : Bool) : List CaregiverEffect :=
  .post (CaregiverAPI_markAlertRead_url alertId)
    :: (if success then [.reloadAlerts] else [])

/-! ### Primary user follow-mode toggle -/

/-- Request body sent by PrimaryUserUI.toggleFollowMode through
PrimaryUserAPI.toggleFollowMode: the activate flag is the negation of the
stored followModeActive flag, and person_id is the primary caregiver id when
activating and null when deactivating. -/
def toggleFollowModeBody (followModeActive : Bool) : Bool × Option String :=
  let activate := !followModeActive
  let personId := if activate then some "primary_caregiver" else none
  (activate, personId)

/-- New value of the stored followModeActive flag after toggleFollowMode,
given the API outcome: `some true` for a response with success true,
`some false` for success false, `none` when the fetch threw. Only a
successful response writes the new value; there is no optimistic update. -/
def toggleFollowModeNext (followModeActive : Bool) (result : Option Bool) : Bool :=
  match result with
  | some true => !followModeActive
  | some false => followModeActive
  | none => followModeActive

/-! ### Caregiver patient status card -/

/-- The status payload fields read by CaregiverUI.loadPatientStatus. -/
structure PatientStatus where
  current_activity : String
  location : String
  last_movement : String
  wellbeing_score : Nat
deriving DecidableEq, Repr

/-- The JSON envelope returned by CaregiverAPI.getPatientStatus. -/
structure PatientStatusResult where
  success : Bool
  status : PatientStatus
deriving DecidableEq, Repr

/-- Text content of the four DOM nodes written by loadPatientStatus. -/
structure CaregiverStatusDom where
  currentActivity : String
  currentLocation : String
  lastMovement : String
  wellbeingScore : String
deriving DecidableEq, Repr

/-- CaregiverUI.loadPatientStatus: on a successful result it writes the four
text nodes, the wellbeing score as the interpolation of the score followed
by the string slash-ten; otherwise it leaves the DOM untouched. -/
def loadPatientStatus (result : PatientStatusResult) (dom : CaregiverStatusDom) :
    CaregiverStatusDom :=
  if result.success then
    { currentActivity := result.status.current_activity
      currentLocation := result.status.location
      lastMovement := result.status.last_movement
      wellbeingScore := toString result.status.wellbeing_score ++ "/10" }
  else dom

/-! ### Activity list of main.js -/

/-- The iconColors lookup of addActivityItem with its info default. -/
def activityIconColor (type : String) : String :=
  if type == "success" then "bg-success-soft"
  else if type == "danger" then "bg-danger-soft"
  else if type == "warning" then "bg-warning-soft"
  else "bg-info-soft"

/-- The icons lookup of addActivityItem with its info default. -/
def activityIcon (type : String) : String :=
  if type == "success" then "fa-check text-success"
  else if type == "danger" then "fa-exclamation-triangle text-danger"
  else if type == "warning" then "fa-bell text-warning"
  else "fa-info-circle text-info"

/-- Content of the activity-item node that addActivityItem builds from its
arguments. -/
structure ActivityItem where
  iconColor : String
  icon : String
  title : String
  time : String
deriving DecidableEq, Repr

/-- The node inserted at the top of the list by addActivityItem. -/
def newActivityItem (title time type : String) : ActivityItem :=
  { iconColor := activityIconColor type
    icon := activityIcon type
    title := title
    time := time }

/-- main.js addActivityItem: inserts the new item at the beginning of the
activity list, then removes the last item when the list now holds more than
5 items. -/
def addActivityItem (title time type : String) (items : List ActivityItem) :
    List ActivityItem :=
  let l := newActivityItem title time type :: items
  if 5 < l.length then l.dropLast else l

/-! ### Caregiver battery card -/

/-- The three color classes the battery bar can carry; loadBattery removes
all three and adds exactly one. -/
inductive BarColor where
  | green
  | yellow
  | red
deriving DecidableEq, Repr

/-- The class CaregiverUI.loadBattery adds to the battery bar: green above
50, yellow above 20, red otherwise. -/
def batteryBarColor (level : Int) : BarColor :=
  if 50 < level then .green
  else if 20 < level then .yellow
  else .red

/-- Whether loadBattery shows the low battery warning toast: strictly below
20 only. -/
def lowBatteryWarning (level : Int) : Bool := level < 20

/-! ### Sample values used by witness theorems -/

/-- A concrete unread critical alert. -/
def sampleAlert : AlertRec :=
  { id := "alert_001"
    severity := "critical"
    type := "fall_detected"
    message := "Fall detected in the kitchen"
    location := "Kitchen"
    timestamp := "2025-01-01T00:00:00Z"
    read := false }

/-- A concrete successful patient status payload with wellbeing score 7. -/
def sampleStatusResult : PatientStatusResult :=
  { success := true
    status :=
      { current_activity := "Resting"
        location := "Living Room"
        last_movement := "2 minutes ago"
        wellbeing_score := 7 } }

/-- A blank caregiver status DOM. -/
def sampleDom : CaregiverStatusDom :=
  { currentActivity := ""
    currentLocation := ""
    lastMovement := ""
    wellbeingScore := "" }

/-! ### Helper lemmas -/

/-- Appending anything to a string keeps the string as a data prefix. -/
theorem strStartsWith_append (p q : String) : strStartsWith (p ++ q) p = true := by
  simp [strStartsWith, String.data_append, List.take_left]

/-- String concatenation is associative. -/
theorem str_append_assoc (a b c : String) : a ++ b ++ c = a ++ (b ++ c) := by
  apply String.ext
  simp [String.data_append]

/-! ### Claim theorems -/

/-- C1: for every API module (CaregiverAPI, PrimaryUserAPI, EmergencyAPI,
HealthProfessionalAPI), the fetch wrapper returns the parsed JSON body
exactly when the HTTP status is 2xx and throws exactly when it is not, and
the thrown error for a non-2xx response is built from the status code alone,
whatever body the server sent. -/
theorem c1_fetch_wrapper (α : Type) (r : HttpResponse α) (j : α) (b2 : Option α)
    (h : r.jsonBody = some j) :
    (CaregiverAPI_fetch r = .ok j ↔ respOk r.status = true) ∧
    (respOk r.status = false → CaregiverAPI_fetch r = .error (.httpError r.status)) ∧
    (respOk r.status = false →
      CaregiverAPI_fetch { status := r.status, jsonBody := b2 }
        = .error (.httpError r.status)) ∧
    (PrimaryUserAPI_fetch r = .ok j ↔ respOk r.status = true) ∧
    (respOk r.status = false → PrimaryUserAPI_fetch r = .error (.httpError r.status)) ∧
    (respOk r.status = false →
      PrimaryUserAPI_fetch { status := r.status, jsonBody := b2 }
        = .error (.httpError r.status)) ∧
    (EmergencyAPI_fetch r = .ok j ↔ respOk r.status = true) ∧
    (respOk r.status = false → EmergencyAPI_fetch r = .error (.httpError r.status)) ∧
    (respOk r.status = false →
      EmergencyAPI_fetch { status := r.status, jsonBody := b2 }
        = .error (.httpError r.status)) ∧
    (HealthProfessionalAPI_fetch r = .ok j ↔ respOk r.status = true) ∧
    (respOk r.status = false →
      HealthProfessionalAPI_fetch r = .error (.httpError r.status)) ∧
    (respOk r.status = false →
      HealthProfessionalAPI_fetch { status := r.status, jsonBody := b2 }
        = .error (.httpError r.status)) := by
  simp only [CaregiverAPI_fetch, PrimaryUserAPI_fetch, EmergencyAPI_fetch,
    HealthProfessionalAPI_fetch, h]
  cases hok : respOk r.status <;> simp [hok]

/-- C1 witness: the wrapper at a concrete 2xx response with parsed body 5. -/
theorem c1_fetch_wrapper_witness :
    ((CaregiverAPI_fetch ({ status := 200, jsonBody := some 5 } : HttpResponse Nat)
        = .ok 5 ↔ respOk 200 = true) ∧
    (respOk 200 = false →
      CaregiverAPI_fetch ({ status := 200, jsonBody := some 5 } : HttpResponse Nat)
        = .error (.httpError 200)) ∧
    (respOk 200 = false →
      CaregiverAPI_fetch ({ status := 200, jsonBody := none } : HttpResponse Nat)
        = .error (.httpError 200)) ∧
    (PrimaryUserAPI_fetch ({ status := 200, jsonBody := some 5 } : HttpResponse Nat)
        = .ok 5 ↔ respOk 200 = true) ∧
    (respOk 200 = false →
      PrimaryUserAPI_fetch ({ status := 200, jsonBody := some 5 } : HttpResponse Nat)
        = .error (.httpError 200)) ∧
    (respOk 200 = false →
      PrimaryUserAPI_fetch ({ status := 200, jsonBody := none } : HttpResponse Nat)
        = .error (.httpError 200)) ∧
    (EmergencyAPI_fetch ({ status := 200, jsonBody := some 5 } : HttpResponse Nat)
        = .ok 5 ↔ respOk 200 = true) ∧
    (respOk 200 = false →
      EmergencyAPI_fetch ({ status := 200, jsonBody := some 5 } : HttpResponse Nat)
        = .error (.httpError 200)) ∧
    (respOk 200 = false →
      EmergencyAPI_fetch ({ status := 200, jsonBody := none } : HttpResponse Nat)
        = .error (.httpError 200)) ∧
    (HealthProfessionalAPI_fetch ({ status := 200, jsonBody := some 5 } : HttpResponse Nat)
        = .ok 5 ↔ respOk 200 = true) ∧
    (respOk 200 = false →
      HealthProfessionalAPI_fetch ({ status := 200, jsonBody := some 5 } : HttpResponse Nat)
        = .error (.httpError 200)) ∧
    (respOk 200 = false →
      HealthProfessionalAPI_fetch ({ status := 200, jsonBody := none } : HttpResponse Nat)
        = .error (.httpError 200))) :=
  c1_fetch_wrapper Nat { status := 200, jsonBody := some 5 } 5 none rfl

/-- C2 counterexample: not every startPolling interval lies between 5000 ms
and 60000 ms; HealthProfessionalUI polls trends every 300000 ms. -/
theorem c2_counterexample :
    ¬ (∀ i ∈ startPollingIntervals, 5000 ≤ i ∧ i ≤ 60000) := by
  decide

/-- C2 amended: every fixed-interval polling timer registered in a
startPolling method has a period of at least 5 seconds and at most 300
seconds. -/
theorem c2_amended_intervals (i : Nat) (h : i ∈ startPollingIntervals) :
    5000 ≤ i ∧ i ≤ 300000 := by
  have hall : ∀ j ∈ startPollingIntervals, 5000 ≤ j ∧ j ≤ 300000 := by decide
  exact hall i h

/-- C2 witness: the caregiver patient-status period of 10000 ms. -/
theorem c2_amended_intervals_witness :
    10000 ∈ startPollingIntervals ∧ (5000 ≤ 10000 ∧ 10000 ≤ 300000) :=
  ⟨by decide, c2_amended_intervals 10000 (by decide)⟩

/-- C3: one invocation of playAlertSound schedules exactly 9 beeps whose
frequency alternates starting at 880 Hz, beep k playing 880 Hz for even k
and 660 Hz for odd k, and the repeating interval clears itself once the
beep count reaches maxBeeps, after which the state never changes again. -/
theorem c3_alarm_beeps (k n : Nat) (hk : k < 9) :
    (alarmAfter 9).beeps = [880, 660, 880, 660, 880, 660, 880, 660, 880] ∧
    (alarmAfter 9).beeps.length = 9 ∧
    (alarmAfter 9).intervalActive = false ∧
    alarmAfter (9 + n) = alarmAfter 9 ∧
    (alarmAfter 9).beeps.getD k 0 = (if k % 2 = 0 then 880 else 660) := by
  refine ⟨by decide, by decide, by decide, ?_, ?_⟩
  · induction n with
    | zero => rfl
    | succ m ih =>
      show alarmTick (alarmAfter (9 + m)) = alarmAfter 9
      rw [ih]
      decide
  · interval_cases k <;> decide

/-- C3 witness: the theorem evaluated at beep index 3 and stability step 5. -/
theorem c3_alarm_beeps_witness :
    3 < 9 ∧
    ((alarmAfter 9).beeps = [880, 660, 880, 660, 880, 660, 880, 660, 880] ∧
    (alarmAfter 9).beeps.length = 9 ∧
    (alarmAfter 9).intervalActive = false ∧
    alarmAfter (9 + 5) = alarmAfter 9 ∧
    (alarmAfter 9).beeps.getD 3 0 = (if 3 % 2 = 0 then 880 else 660)) :=
  ⟨by decide, c3_alarm_beeps 3 5 (by decide)⟩

/-- C4 counterexample: it is not true that no setInterval handle ever gets a
clearInterval; the alarm beep interval is cleared. -/
theorem c4_counterexample : ¬ (∀ t : DashboardTimer, timerCleared t = false) := by
  intro h
  have halarm := h .alarmBeep
  simp [timerCleared] at halarm

/-- C4 amended: every setInterval timer except the alarm beep interval is
fire-and-forget and never cleared, running for the lifetime of the page. -/
theorem c4_amended_timers (t : DashboardTimer) (h : t ≠ DashboardTimer.alarmBeep) :
    timerCleared t = false := by
  cases t <;> first | rfl | exact absurd rfl h

/-- C4 witness: the main.js clock timer is never cleared. -/
theorem c4_amended_timers_witness :
    DashboardTimer.mainUpdateTime ≠ DashboardTimer.alarmBeep ∧
    timerCleared DashboardTimer.mainUpdateTime = false :=
  ⟨by decide, c4_amended_timers DashboardTimer.mainUpdateTime (by decide)⟩

/-- C5: renderAlerts maps every alert to one item whose color and badge
classes come from the fixed severity tables with a gray default for unknown
severities, marks an item as unread, with the data-unread attribute and the
red dot, exactly when the read flag is false, attaches a click handler to
every unread item, and that handler POSTs the mark-read endpoint for the
alert id and reloads the list exactly when the response reports success. -/
theorem c5_render_alerts (alerts : List AlertRec) (a : AlertRec) (h : a ∈ alerts) :
    renderAlertItem a ∈ renderAlerts alerts ∧
    (renderAlerts alerts).length = alerts.length ∧
    (renderAlertItem a).colorClass = severityColorClass a.severity ∧
    (renderAlertItem a).badgeClass = severityBadgeClass a.severity ∧
    severityColorClass "critical" = "bg-red-50 border-red-300" ∧
    severityColorClass "high" = "bg-orange-50 border-orange-300" ∧
    severityColorClass "medium" = "bg-yellow-50 border-yellow-300" ∧
    severityColorClass "low" = "bg-blue-50 border-blue-300" ∧
    (a.severity ≠ "critical" → a.severity ≠ "high" → a.severity ≠ "medium" →
      a.severity ≠ "low" →
      (renderAlertItem a).colorClass = "bg-gray-50 border-gray-300") ∧
    ((renderAlertItem a).dataUnread = true ↔ a.read = false) ∧
    ((renderAlertItem a).unreadDot = true ↔ a.read = false) ∧
    (a.read = false → a.id ∈ clickHandlerTargets (renderAlerts alerts)) ∧
    markAlertRead a.id true
      = [.post (CaregiverAPI_markAlertRead_url a.id), .reloadAlerts] ∧
    markAlertRead a.id false = [.post (CaregiverAPI_markAlertRead_url a.id)] := by
  refine ⟨List.mem_map_of_mem _ h, List.length_map _ _, rfl, rfl, by decide, by decide,
    by decide, by decide, ?_, ?_, ?_, ?_, rfl, rfl⟩
  · intro h1 h2 h3 h4
    simp [renderAlertItem, severityColorClass, h1, h2, h3, h4]
  · simp [renderAlertItem]
  · simp [renderAlertItem]
  · intro hr
    have hmem : renderAlertItem a ∈ renderAlerts alerts := List.mem_map_of_mem _ h
    have hflt : renderAlertItem a ∈ (renderAlerts alerts).filter (fun i => i.dataUnread) := by
      rw [List.mem_filter]
      exact ⟨hmem, by simp [renderAlertItem, hr]⟩
    have hmap := List.mem_map_of_mem (fun i : RenderedAlertItem => i.alertId) hflt
    simpa [clickHandlerTargets, renderAlertItem] using hmap

/-- C5 witness: the rendering properties at one concrete unread critical
alert in a one-element list. -/
theorem c5_render_alerts_witness :
    sampleAlert ∈ [sampleAlert] ∧
    (renderAlertItem sampleAlert ∈ renderAlerts [sampleAlert] ∧
    (renderAlerts [sampleAlert]).length = [sampleAlert].length ∧
    (renderAlertItem sampleAlert).colorClass = severityColorClass sampleAlert.severity ∧
    (renderAlertItem sampleAlert).badgeClass = severityBadgeClass sampleAlert.severity ∧
    severityColorClass "critical" = "bg-red-50 border-red-300" ∧
    severityColorClass "high" = "bg-orange-50 border-orange-300" ∧
    severityColorClass "medium" = "bg-yellow-50 border-yellow-300" ∧
    severityColorClass "low" = "bg-blue-50 border-blue-300" ∧
    (sampleAlert.severity ≠ "critical" → sampleAlert.severity ≠ "high" →
      sampleAlert.severity ≠ "medium" → sampleAlert.severity ≠ "low" →
      (renderAlertItem sampleAlert).colorClass = "bg-gray-50 border-gray-300") ∧
    ((renderAlertItem sampleAlert).dataUnread = true ↔ sampleAlert.read = false) ∧
    ((renderAlertItem sampleAlert).unreadDot = true ↔ sampleAlert.read = false) ∧
    (sampleAlert.read = false →
      sampleAlert.id ∈ clickHandlerTargets (renderAlerts [sampleAlert])) ∧
    markAlertRead sampleAlert.id true
      = [.post (CaregiverAPI_markAlertRead_url sampleAlert.id), .reloadAlerts] ∧
    markAlertRead sampleAlert.id false
      = [.post (CaregiverAPI_markAlertRead_url sampleAlert.id)]) :=
  ⟨by decide, c5_render_alerts [sampleAlert] sampleAlert (by decide)⟩

/-- C7 counterexample: the stats URL fetched by main.js loadDashboardStats
is a dashboard request URL that does not begin with any of the four
role-specific API base URLs. -/
theorem c7_counterexample :
    "/api/stats" ∈ mainDashboardFetchUrls ∧
    ¬ ∃ b ∈ roleBaseURLs, strStartsWith "/api/stats" b = true := by
  exact ⟨by decide, by decide⟩

/-- C7 amended: every request URL built by one of the four role API modules
begins with that module base URL, and each of the four base URLs ends in
the path segment api. -/
theorem c7_amended_role_urls (limit hours days : Nat)
    (alertId userId emergencyId lat lng : String) (sevOpt typeOpt : Option String) :
    strStartsWith CaregiverAPI_getPatientStatus_url CaregiverAPI_baseURL = true ∧
    strStartsWith CaregiverAPI_getLocation_url CaregiverAPI_baseURL = true ∧
    strStartsWith (CaregiverAPI_getAlerts_url limit sevOpt) CaregiverAPI_baseURL = true ∧
    strStartsWith (CaregiverAPI_markAlertRead_url alertId) CaregiverAPI_baseURL = true ∧
    strStartsWith CaregiverAPI_getBattery_url CaregiverAPI_baseURL = true ∧
    strStartsWith CaregiverAPI_getVideoStream_url CaregiverAPI_baseURL = true ∧
    strStartsWith PrimaryUserAPI_inputMode_url PrimaryUserAPI_baseURL = true ∧
    strStartsWith PrimaryUserAPI_visualFeedback_url PrimaryUserAPI_baseURL = true ∧
    strStartsWith (PrimaryUserAPI_getNextMedication_url userId) PrimaryUserAPI_baseURL = true ∧
    strStartsWith (PrimaryUserAPI_getMedicationSchedules_url userId)
      PrimaryUserAPI_baseURL = true ∧
    strStartsWith PrimaryUserAPI_queryMedical_url PrimaryUserAPI_baseURL = true ∧
    strStartsWith PrimaryUserAPI_followMode_url PrimaryUserAPI_baseURL = true ∧
    strStartsWith PrimaryUserAPI_identifyObject_url PrimaryUserAPI_baseURL = true ∧
    strStartsWith PrimaryUserAPI_readText_url PrimaryUserAPI_baseURL = true ∧
    strStartsWith PrimaryUserAPI_describeScene_url PrimaryUserAPI_baseURL = true ∧
    strStartsWith (PrimaryUserAPI_getSettings_url userId) PrimaryUserAPI_baseURL = true ∧
    strStartsWith PrimaryUserAPI_updateAccessibility_url PrimaryUserAPI_baseURL = true ∧
    strStartsWith PrimaryUserAPI_updatePrivacy_url PrimaryUserAPI_baseURL = true ∧
    strStartsWith (EmergencyAPI_getEmergencyDetails_url emergencyId)
      EmergencyAPI_baseURL = true ∧
    strStartsWith (EmergencyAPI_getCriticalData_url emergencyId) EmergencyAPI_baseURL = true ∧
    strStartsWith (EmergencyAPI_updateStatus_url emergencyId) EmergencyAPI_baseURL = true ∧
    strStartsWith (EmergencyAPI_getEnvironmentalData_url emergencyId)
      EmergencyAPI_baseURL = true ∧
    strStartsWith (EmergencyAPI_sendReassurance_url emergencyId) EmergencyAPI_baseURL = true ∧
    strStartsWith (EmergencyAPI_getNearbyFacilities_url lat lng) EmergencyAPI_baseURL = true ∧
    strStartsWith HealthProfessionalAPI_getCurrentVitals_url
      HealthProfessionalAPI_baseURL = true ∧
    strStartsWith (HealthProfessionalAPI_getVitalsHistory_url hours typeOpt)
      HealthProfessionalAPI_baseURL = true ∧
    strStartsWith HealthProfessionalAPI_getHealthTrends_url
      HealthProfessionalAPI_baseURL = true ∧
    strStartsWith HealthProfessionalAPI_generateReport_url
      HealthProfessionalAPI_baseURL = true ∧
    strStartsWith HealthProfessionalAPI_getMedicationAdherence_url
      HealthProfessionalAPI_baseURL = true ∧
    strStartsWith (HealthProfessionalAPI_getFallIncidents_url days)
      HealthProfessionalAPI_baseURL = true ∧
    CaregiverAPI_baseURL = "/caregiver" ++ "/api" ∧
    PrimaryUserAPI_baseURL = "/primary" ++ "/api" ∧
    EmergencyAPI_baseURL = "/emergency" ++ "/api" ∧
    HealthProfessionalAPI_baseURL = "/health-professional" ++ "/api" := by
  cases sevOpt <;> cases typeOpt <;>
  · repeat' apply And.intro
    all_goals
      first
      | decide
      | (simp only [CaregiverAPI_getAlerts_url, CaregiverAPI_markAlertRead_url,
          PrimaryUserAPI_getNextMedication_url, PrimaryUserAPI_getMedicationSchedules_url,
          PrimaryUserAPI_getSettings_url, EmergencyAPI_getEmergencyDetails_url,
          EmergencyAPI_getCriticalData_url, EmergencyAPI_updateStatus_url,
          EmergencyAPI_getEnvironmentalData_url, EmergencyAPI_sendReassurance_url,
          EmergencyAPI_getNearbyFacilities_url, HealthProfessionalAPI_getVitalsHistory_url,
          HealthProfessionalAPI_getFallIncidents_url, str_append_assoc]
         exact strStartsWith_append _ _)

/-- C8: a successful patient-status payload makes loadPatientStatus write
the wellbeing score node as the score followed by the string slash-ten, in
particular the literal text 7/10 when the score is 7. -/
theorem c8_wellbeing_text (result : PatientStatusResult) (dom : CaregiverStatusDom)
    (h : result.success = true) :
    (loadPatientStatus result dom).wellbeingScore
      = toString result.status.wellbeing_score ++ "/10" ∧
    (result.status.wellbeing_score = 7 →
      (loadPatientStatus result dom).wellbeingScore = "7/10") := by
  constructor
  · simp [loadPatientStatus, h]
  · intro h7
    simp [loadPatientStatus, h, h7]
    decide

/-- C8 witness: the concrete payload with wellbeing score 7. -/
theorem c8_wellbeing_text_witness :
    sampleStatusResult.success = true ∧
    ((loadPatientStatus sampleStatusResult sampleDom).wellbeingScore
      = toString sampleStatusResult.status.wellbeing_score ++ "/10" ∧
    (sampleStatusResult.status.wellbeing_score = 7 →
      (loadPatientStatus sampleStatusResult sampleDom).wellbeingScore = "7/10")) :=
  ⟨rfl, c8_wellbeing_text sampleStatusResult sampleDom rfl⟩

/-- C9: when the activity list holds at most 5 items, addActivityItem keeps
it at most 5 items: the new item is prepended, and the oldest item is
dropped exactly when the list would otherwise exceed 5. -/
theorem c9_activity_bound (title time type : String) (items : List ActivityItem)
    (h : items.length ≤ 5) :
    (addActivityItem title time type items).length ≤ 5 ∧
    (items.length = 5 →
      addActivityItem title time type items
        = (newActivityItem title time type :: items).dropLast) ∧
    (items.length < 5 →
      addActivityItem title time type items = newActivityItem title time type :: items) := by
  refine ⟨?_, ?_, ?_⟩
  · simp only [addActivityItem]
    split <;> simp_all only [List.length_dropLast, List.length_cons] <;> omega
  · intro h5
    have hgt : 5 < (newActivityItem title time type :: items).length := by
      simp [h5]
    simp only [addActivityItem, if_pos hgt]
  · intro h5
    have hle : ¬ 5 < (newActivityItem title time type :: items).length := by
      simp only [List.length_cons]
      omega
    simp only [addActivityItem, if_neg hle]

/-- C9 witness: adding a fall alert to an empty activity list. -/
theorem c9_activity_bound_witness :
    ([] : List ActivityItem).length ≤ 5 ∧
    ((addActivityItem "Fall Detected" "Just now" "danger" []).length ≤ 5 ∧
    (([] : List ActivityItem).length = 5 →
      addActivityItem "Fall Detected" "Just now" "danger" []
        = (newActivityItem "Fall Detected" "Just now" "danger" :: []).dropLast) ∧
    (([] : List ActivityItem).length < 5 →
      addActivityItem "Fall Detected" "Just now" "danger" []
        = newActivityItem "Fall Detected" "Just now" "danger" :: [])) :=
  ⟨by decide, c9_activity_bound "Fall Detected" "Just now" "danger" [] (by decide)⟩

/-- C6: toggleFollowMode sends the negation of the stored flag, with
person_id primary_caregiver when activating and null when deactivating; a
successful response stores the negated flag, while a failed or unsuccessful
response leaves the stored flag unchanged. -/
theorem c6_toggle_follow_mode (b : Bool) :
    (toggleFollowModeBody b).1 = !b ∧
    (toggleFollowModeBody b).2 = (if b then none else some "primary_caregiver") ∧
    toggleFollowModeNext b (some true) = !b ∧
    toggleFollowModeNext b (some false) = b ∧
    toggleFollowModeNext b none = b := by
  cases b <;> refine ⟨rfl, rfl, rfl, rfl, rfl⟩

/-- C10: the battery bar gets green exactly above level 50, yellow exactly
between 21 and 50, red exactly at or below 20, while the low-battery toast
fires exactly below 20, so a level of exactly 20 shows a red bar and no
warning. -/
theorem c10_battery_boundary (level : Int) :
    (batteryBarColor level = .green ↔ 50 < level) ∧
    (batteryBarColor level = .yellow ↔ (20 < level ∧ level ≤ 50)) ∧
    (batteryBarColor level = .red ↔ level ≤ 20) ∧
    (lowBatteryWarning level = true ↔ level < 20) ∧
    batteryBarColor 20 = .red ∧
    lowBatteryWarning 20 = false := by
  unfold batteryBarColor lowBatteryWarning
  refine ⟨?_, ?_, ?_, by simp, by decide, by decide⟩
  all_goals split_ifs <;> simp_all <;> omega

end FallDetection
